import Mathlib

/-
Shallow embedding of src/common/storage_unqlite.cpp (namespace Akonadi2,
class Storage): a transactional key-value storage layer over the unqlite
engine.  The Storage layer itself (transaction flag, open-handle guards,
scan/fetch control flow, error reporting) is translated line by line from
the source.  The unqlite engine is an external collaborator not in the
repository; it is modelled functionally, per the capability interface the
spec describes (begin/commit/rollback, kv_store/kv_delete, exact-match
cursor seek over the current view).
-/

namespace StorageUnqlite

/-- Keys and values are opaque byte sequences. -/
abbrev Bytes := List Nat

/-- The engine's success result code (UNQLITE_OK = 0). -/
def UNQLITE_OK : Int := 0

/-- Association-list update with replacement of an existing binding:
the engine's kv_store semantics on its key-value view. -/
def assocPut : List (Bytes × Bytes) → Bytes → Bytes → List (Bytes × Bytes)
  | [], k, v => [(k, v)]
  | (k0, v0) :: rest, k, v =>
      if k0 = k then (k0, v) :: rest else (k0, v0) :: assocPut rest k v

/-- Association-list deletion: the engine's kv_delete semantics. -/
def assocDel : List (Bytes × Bytes) → Bytes → List (Bytes × Bytes)
  | [], _ => []
  | (k0, v0) :: rest, k =>
      if k0 = k then assocDel rest k else (k0, v0) :: assocDel rest k

/-- Association-list lookup: the engine's exact-match cursor seek. -/
def assocGet : List (Bytes × Bytes) → Bytes → Option Bytes
  | [], _ => none
  | (k0, v0) :: rest, k => if k0 = k then some v0 else assocGet rest k

/-- Functional model of the external unqlite engine's transactional state:
`committed` is the durable key-value content of the database file, and
`pending` is the working view of an engine-level transaction begun by
unqlite_begin and not yet committed or rolled back (none when no engine
transaction is open). -/
structure EngineState where
  committed : List (Bytes × Bytes)
  pending : Option (List (Bytes × Bytes))
deriving DecidableEq

/-- The key-value view current engine operations act on: the pending
transaction's working copy when one is open, else the durable content. -/
def kvView (e : EngineState) : List (Bytes × Bytes) :=
  e.pending.getD e.committed

/-- Engine begin: opens a transaction whose working view starts from the
current view. -/
def unqlite_begin (e : EngineState) : EngineState :=
  { committed := e.committed, pending := some (kvView e) }

/-- Engine commit: makes the pending view durable and closes the transaction. -/
def unqlite_commit (e : EngineState) : EngineState :=
  { committed := kvView e, pending := none }

/-- Engine rollback: discards the pending view. -/
def unqlite_rollback (e : EngineState) : EngineState :=
  { committed := e.committed, pending := none }

/-- Engine kv_store: updates the current view (the open transaction's
working copy when one exists, else the durable content directly). -/
def unqlite_kv_store (e : EngineState) (k v : Bytes) : EngineState :=
  match e.pending with
  | some m => { committed := e.committed, pending := some (assocPut m k v) }
  | none => { committed := assocPut e.committed k v, pending := none }

/-- Engine kv_delete: removes a key from the current view. -/
def unqlite_kv_delete (e : EngineState) (k : Bytes) : EngineState :=
  match e.pending with
  | some m => { committed := e.committed, pending := some (assocDel m k) }
  | none => { committed := assocDel e.committed k, pending := none }

/-- State of one Storage object (class Storage::Private, source lines 41-58):
the store's logical name, whether unqlite_open produced a handle
(`dbOpen` models `d->db != nullptr`), the layer's transaction flag
`d->inTransaction`, and the engine state behind the handle.  The access
mode and the allowDuplicates flag are omitted: the source never consults
them after open (the flag "currently does nothing", source line 65). -/
structure StoreState where
  name : String
  dbOpen : Bool
  inTransaction : Bool
  engine : EngineState
deriving DecidableEq

/-- Storage::Error: logical store name, error code, message. -/
structure Error where
  store : String
  code : Int
  message : String
deriving DecidableEq

/-- Storage::isInTransaction (source lines 140-143). -/
def isInTransaction (s : StoreState) : Bool :=
  s.inTransaction

/-- Storage::startTransaction (source lines 145-162).  `beginRc` models the
result code unqlite_begin returns; the engine transaction opens exactly
when that call succeeds.  The source sets
`d->inTransaction = unqlite_begin(d->db) == UNQLITE_OK` and returns it
(an engine failure is additionally logged to stderr, which has no model). -/
def startTransaction (s : StoreState) (beginRc : Int) : Bool × StoreState :=
  if !s.dbOpen then
    (false, s)
  else if s.inTransaction then
    (true, s)
  else if beginRc = UNQLITE_OK then
    (true, { s with inTransaction := true, engine := unqlite_begin s.engine })
  else
    (false, { s with inTransaction := false })

/-- Storage::commitTransaction (source lines 164-182).  `commitRc` models
the result code of unqlite_commit.  The flag is cleared unconditionally
once the commit is attempted; the return value is `commitRc == UNQLITE_OK`.
On an engine-reported failure the engine's own state after the failed
commit is unspecified at this layer; the model leaves it unchanged. -/
def commitTransaction (s : StoreState) (commitRc : Int) : Bool × StoreState :=
  if !s.dbOpen then
    (false, s)
  else if !s.inTransaction then
    (true, s)
  else if commitRc = UNQLITE_OK then
    (true, { s with inTransaction := false, engine := unqlite_commit s.engine })
  else
    (false, { s with inTransaction := false })

/-- Storage::abortTransaction (source lines 184-192): returns void; rolls
back via the engine and clears the flag only when the handle is open and a
transaction is active. -/
def abortTransaction (s : StoreState) : StoreState :=
  if !s.dbOpen || !s.inTransaction then
    s
  else
    { s with inTransaction := false, engine := unqlite_rollback s.engine }

/-- Storage::write(const void*, size_t, const void*, size_t) (source lines
194-207).  `storeRc` models the result of unqlite_kv_store.  `key.take
keySize` and `value.take valueSize` model reading the stated number of
bytes from each buffer (a size exceeding the buffer is an out-of-bounds
read in the C++; theorems only use in-bounds sizes). -/
def writeRaw (s : StoreState) (key : Bytes) (keySize : Nat)
    (value : Bytes) (valueSize : Nat) (storeRc : Int) : Bool × StoreState :=
  if !s.dbOpen then
    (false, s)
  else if storeRc = UNQLITE_OK then
    (true, { s with engine := unqlite_kv_store s.engine (key.take keySize) (value.take valueSize) })
  else
    (false, s)

/-- Storage::write(const std::string&, const std::string&) (source lines
209-212): delegates to the raw write, passing `sKey.size()` as BOTH the
key length and the value length, exactly as line 211 does. -/
def write (s : StoreState) (sKey sValue : Bytes) (storeRc : Int) : Bool × StoreState :=
  writeRaw s sKey sKey.length sValue sKey.length storeRc

/-- Result of Storage::remove: the store state afterwards and the errors
handed to the error handler. -/
structure RemoveResult where
  state : StoreState
  errors : List Error
deriving DecidableEq

/-- Storage::remove (source lines 243-253): with no handle, hands the
error handler Error(name, -1, "Not open") and performs no engine call;
otherwise calls unqlite_kv_delete, ignoring its result. -/
def remove (s : StoreState) (keyData : Bytes) (keySize : Nat) : RemoveResult :=
  if !s.dbOpen then
    { state := s, errors := [⟨s.name, -1, "Not open"⟩] }
  else
    { state := { s with engine := unqlite_kv_delete s.engine (keyData.take keySize) },
      errors := [] }

/-- Observable outcome of one Storage::scan call: the (key, value) entries
fetched and handed to the result handler, in order; the errors handed to
the error handler; the keys reported through the stdout not-found
diagnostic (source line 314); whether a cursor was initialized; and
whether the cursor was released and the key/value buffers freed before
returning (source lines 319-321). -/
structure ScanResult where
  handled : List (Bytes × Bytes)
  errors : List Error
  diagnostics : List Bytes
  cursorOpened : Bool
  cursorReleased : Bool
  buffersFreed : Bool
deriving DecidableEq

/-- fetchCursorData (source lines 256-280): queries the entry's key and
data sizes, grows the shared buffers as needed, copies the bytes, and
invokes the result handler.  The handler's boolean return value is
evaluated and discarded (the call at line 277 is an expression
statement); the entry handed over is returned so scan can record it. -/
def fetchCursorData (entry : Bytes × Bytes)
    (resultHandler : Bytes → Bytes → Bool) : Bytes × Bytes :=
  let _rh := resultHandler entry.1 entry.2
  entry

/-- Storage::scan (source lines 282-322).  `cursorInitRc` models the
result of unqlite_kv_cursor_init.  With no handle, the error handler gets
Error(name, -1, "Not open") before any engine call.  On cursor-init
failure the error handler gets the engine code with the failing function
name as message (reportDbError, the engine error log being empty in the
model).  Full-scan mode (null key data or zero key size) walks every
entry of the engine's current view in order, fetching each one; the
loop is driven by cursor validity alone.  Exact-seek mode seeks the key:
if present that one entry is fetched, otherwise only the stdout
diagnostic is emitted.  Both buffers are freed and the cursor released on
the way out (source lines 319-321). -/
def scan (s : StoreState) (keyData : Option Bytes) (keySize : Nat)
    (resultHandler : Bytes → Bytes → Bool) (cursorInitRc : Int) : ScanResult :=
  if !s.dbOpen then
    { handled := [], errors := [⟨s.name, -1, "Not open"⟩], diagnostics := [],
      cursorOpened := false, cursorReleased := false, buffersFreed := false }
  else if cursorInitRc ≠ UNQLITE_OK then
    { handled := [], errors := [⟨s.name, cursorInitRc, "unqlite_kv_cursor_init"⟩],
      diagnostics := [],
      cursorOpened := true, cursorReleased := false, buffersFreed := false }
  else if keyData.isNone || keySize = 0 then
    { handled := (kvView s.engine).map (fun e => fetchCursorData e resultHandler),
      errors := [], diagnostics := [],
      cursorOpened := true, cursorReleased := true, buffersFreed := true }
  else
    let key := (keyData.getD []).take keySize
    match assocGet (kvView s.engine) key with
    | some v =>
        { handled := [fetchCursorData (key, v) resultHandler],
          errors := [], diagnostics := [],
          cursorOpened := true, cursorReleased := true, buffersFreed := true }
    | none =>
        { handled := [], errors := [], diagnostics := [key],
          cursorOpened := true, cursorReleased := true, buffersFreed := true }

/-- Storage::read, raw-buffer overload (source lines 229-236): delegates
to scan with the key as exact-seek target; the scan-level handler forwards
only the value to the caller's handler. -/
def readRaw (s : StoreState) (sKey : Bytes)
    (resultHandler : Bytes → Bool) (cursorInitRc : Int) : ScanResult :=
  scan s (some sKey) sKey.length (fun _k v => resultHandler v) cursorInitRc

/-- Storage::read, string overload (source lines 214-227): wraps the raw
overload, building a string from the returned pointer and length for the
caller's handler. -/
def read (s : StoreState) (sKey : Bytes)
    (resultHandler : Bytes → Bool) (cursorInitRc : Int) : ScanResult :=
  readRaw s sKey resultHandler cursorInitRc

/-- unqlite_close on the engine handle: the durable content is what the
database file holds; a pending engine transaction does not survive the
handle (the layer's destructor has already rolled any active transaction
back before closing). -/
def closeEngine (e : EngineState) : EngineState :=
  { committed := e.committed, pending := none }

/-- Storage::~Storage (source lines 131-138): aborts any active
transaction, then releases the engine handle (Private::~Private calls
unqlite_close).  Returns the engine state the database file is left in. -/
def destroy (s : StoreState) : EngineState :=
  let s1 := if s.inTransaction then abortTransaction s else s
  closeEngine s1.engine

/-- The key-value content observable after reopening the store's file:
the durable (committed) map. -/
def reopenContents (e : EngineState) : List (Bytes × Bytes) :=
  e.committed

/-- One caller-visible mutating operation of the Storage surface, with the
engine result codes the operation consumes. -/
inductive Op where
  | start (beginRc : Int)
  | commit (commitRc : Int)
  | abortTxn
  | writeOp (key : Bytes) (keySize : Nat) (value : Bytes) (valueSize : Nat) (storeRc : Int)
  | removeOp (key : Bytes) (keySize : Nat)
deriving DecidableEq

/-- Applying one operation to a store state. -/
def applyOp (s : StoreState) : Op → StoreState
  | .start rc => (startTransaction s rc).2
  | .commit rc => (commitTransaction s rc).2
  | .abortTxn => abortTransaction s
  | .writeOp k ksz v vsz rc => (writeRaw s k ksz v vsz rc).2
  | .removeOp k ksz => (remove s k ksz).state

/-- The transaction-flag invariant: the flag is set only when the store
holds an open handle and an engine transaction begun by a successful
unqlite_begin is still pending (no intervening commit or rollback). -/
def txnInv (s : StoreState) : Prop :=
  s.inTransaction = true → (s.dbOpen = true ∧ s.engine.pending.isSome = true)

/-- An open, idle demo store holding two committed entries. -/
def demoStore : StoreState :=
  { name := "demo", dbOpen := true, inTransaction := false,
    engine := { committed := [([1], [10]), ([2], [20])], pending := none } }

/-- An open demo store with an active transaction. -/
def demoTxnStore : StoreState :=
  { name := "demo", dbOpen := true, inTransaction := true,
    engine := { committed := [], pending := some [] } }

/-- A store whose open failed: null handle. -/
def closedStore : StoreState :=
  { name := "closed", dbOpen := false, inTransaction := false,
    engine := { committed := [], pending := none } }

/-- An open, idle, empty store. -/
def emptyOpenStore : StoreState :=
  { name := "inbox", dbOpen := true, inTransaction := false,
    engine := { committed := [], pending := none } }

/-- C1 counterexample: in a full scan over a store with two entries, a
result handler that returns false on every entry (hence on the first one)
still sees the second entry fetched and handed to it — the scan does not
stop early. -/
theorem scan_fullScan_ignores_handler_stop :
    ((fun _ _ => false : Bytes → Bytes → Bool) [1] [10] = false) ∧
    (scan demoStore none 0 (fun _ _ => false) 0).handled =
      [([1], [10]), ([2], [20])] := by
  constructor
  · rfl
  · rfl

/-- C1 (amended): in full-scan mode the result handler's boolean return is
ignored — every entry of the engine's current view is fetched and handed
to the handler, in order, independently of the handler — and the key and
value buffers and the cursor are still released. -/
theorem scan_fullScan_visits_all_entries (s : StoreState)
    (h h' : Bytes → Bytes → Bool) (hdb : s.dbOpen = true) :
    (scan s none 0 h 0).handled = kvView s.engine ∧
    (scan s none 0 h 0).handled = (scan s none 0 h' 0).handled ∧
    (scan s none 0 h 0).buffersFreed = true ∧
    (scan s none 0 h 0).cursorReleased = true := by
  simp [scan, hdb, UNQLITE_OK, fetchCursorData]

/-- Witness for the amended C1 at a concrete store and handlers. -/
theorem scan_fullScan_visits_all_entries_witness :
    demoStore.dbOpen = true ∧
    ((scan demoStore none 0 (fun _ _ => true) 0).handled = kvView demoStore.engine ∧
     (scan demoStore none 0 (fun _ _ => true) 0).handled =
       (scan demoStore none 0 (fun _ _ => false) 0).handled ∧
     (scan demoStore none 0 (fun _ _ => true) 0).buffersFreed = true ∧
     (scan demoStore none 0 (fun _ _ => true) 0).cursorReleased = true) :=
  ⟨by decide,
   scan_fullScan_visits_all_entries demoStore (fun _ _ => true) (fun _ _ => false) (by decide)⟩

/-- C2: with an open handle and an active transaction, commitTransaction
leaves the transaction flag false whatever the engine reports, and returns
true exactly when the engine commit succeeded. -/
theorem commitTransaction_clears_flag_and_reports (s : StoreState) (rc : Int)
    (hdb : s.dbOpen = true) (htx : s.inTransaction = true) :
    isInTransaction (commitTransaction s rc).2 = false ∧
    ((commitTransaction s rc).1 = true ↔ rc = UNQLITE_OK) := by
  by_cases hrc : rc = UNQLITE_OK <;>
    simp [commitTransaction, isInTransaction, hdb, htx, hrc]

/-- Witness for C2 at a concrete store in a transaction, with an engine
commit failure code. -/
theorem commitTransaction_clears_flag_and_reports_witness :
    (demoTxnStore.dbOpen = true ∧ demoTxnStore.inTransaction = true) ∧
    (isInTransaction (commitTransaction demoTxnStore 7).2 = false ∧
     ((commitTransaction demoTxnStore 7).1 = true ↔ (7 : Int) = UNQLITE_OK)) :=
  ⟨⟨by decide, by decide⟩,
   commitTransaction_clears_flag_and_reports demoTxnStore 7 (by decide) (by decide)⟩

/-- C3, evaluated at the failing input: writing key "msg1" (bytes
109,115,103,49) with value "hello" (bytes 104,101,108,108,111) through
the string-typed write succeeds, but the subsequent read hands the
handler "hell" — the first four bytes only, because the write path passes
the key's size as the value length — so the value does not round-trip
unchanged in content and length. -/
theorem write_read_roundTrip_truncates_value :
    (write emptyOpenStore [109, 115, 103, 49] [104, 101, 108, 108, 111] 0).1 = true ∧
    ((read (write emptyOpenStore [109, 115, 103, 49] [104, 101, 108, 108, 111] 0).2
        [109, 115, 103, 49] (fun _ => true) 0).handled.map Prod.snd) =
      [[104, 101, 108, 108]] ∧
    ([104, 101, 108, 108] : Bytes) ≠ [104, 101, 108, 108, 111] := by
  refine ⟨rfl, rfl, by decide⟩

/-- C4: on an open idle store with a healthy engine, startTransaction
returns true twice in a row and leaves the store active; commitTransaction
called while idle returns true with the state unchanged, and
abortTransaction called while idle leaves the state unchanged (it returns
no value). -/
theorem transaction_reentry_and_idle_noops (s : StoreState) (rc : Int)
    (hdb : s.dbOpen = true) (hidle : s.inTransaction = false) :
    (startTransaction s 0).1 = true ∧
    (startTransaction (startTransaction s 0).2 0).1 = true ∧
    isInTransaction (startTransaction (startTransaction s 0).2 0).2 = true ∧
    commitTransaction s rc = (true, s) ∧
    abortTransaction s = s := by
  simp [startTransaction, commitTransaction, abortTransaction, isInTransaction,
        hdb, hidle, UNQLITE_OK]

/-- Witness for C4 at a concrete open idle store, with an arbitrary engine
code for the idle commit. -/
theorem transaction_reentry_and_idle_noops_witness :
    (demoStore.dbOpen = true ∧ demoStore.inTransaction = false) ∧
    ((startTransaction demoStore 0).1 = true ∧
     (startTransaction (startTransaction demoStore 0).2 0).1 = true ∧
     isInTransaction (startTransaction (startTransaction demoStore 0).2 0).2 = true ∧
     commitTransaction demoStore 5 = (true, demoStore) ∧
     abortTransaction demoStore = demoStore) :=
  ⟨⟨by decide, by decide⟩,
   transaction_reentry_and_idle_noops demoStore 5 (by decide) (by decide)⟩

/-- C5: on a store whose handle is null, every operation fails
deterministically and without an engine call: both writes,
startTransaction and commitTransaction return false with the state
unchanged; remove, scan and read hand the error handler
Error(name, -1, "Not open") and hand the result handler nothing, and
scan opens no cursor. -/
theorem closed_store_ops_fail_deterministically (s : StoreState)
    (k v : Bytes) (ksz vsz : Nat) (rc : Int)
    (h : Bytes → Bytes → Bool) (rh : Bytes → Bool)
    (hdb : s.dbOpen = false) :
    writeRaw s k ksz v vsz rc = (false, s) ∧
    write s k v rc = (false, s) ∧
    startTransaction s rc = (false, s) ∧
    commitTransaction s rc = (false, s) ∧
    remove s k ksz = { state := s, errors := [⟨s.name, -1, "Not open"⟩] } ∧
    scan s (some k) ksz h rc =
      { handled := [], errors := [⟨s.name, -1, "Not open"⟩], diagnostics := [],
        cursorOpened := false, cursorReleased := false, buffersFreed := false } ∧
    (read s k rh rc).errors = [⟨s.name, -1, "Not open"⟩] ∧
    (read s k rh rc).handled = [] := by
  simp [writeRaw, write, startTransaction, commitTransaction, remove,
        scan, read, readRaw, hdb]

/-- Witness for C5 at a concrete never-opened store. -/
theorem closed_store_ops_fail_deterministically_witness :
    closedStore.dbOpen = false ∧
    (writeRaw closedStore [1] 1 [2] 1 0 = (false, closedStore) ∧
     write closedStore [1] [2] 0 = (false, closedStore) ∧
     startTransaction closedStore 0 = (false, closedStore) ∧
     commitTransaction closedStore 0 = (false, closedStore) ∧
     remove closedStore [1] 1 =
       { state := closedStore, errors := [⟨closedStore.name, -1, "Not open"⟩] } ∧
     scan closedStore (some [1]) 1 (fun _ _ => true) 0 =
       { handled := [], errors := [⟨closedStore.name, -1, "Not open"⟩], diagnostics := [],
         cursorOpened := false, cursorReleased := false, buffersFreed := false } ∧
     (read closedStore [1] (fun _ => true) 0).errors = [⟨closedStore.name, -1, "Not open"⟩] ∧
     (read closedStore [1] (fun _ => true) 0).handled = []) :=
  ⟨by decide,
   closed_store_ops_fail_deterministically closedStore [1] [2] 1 1 0
     (fun _ _ => true) (fun _ => true) (by decide)⟩

/-- C6: on an open idle store, beginning a transaction and writing a pair
leaves the store's transaction flag set; destroying the store then rolls
the transaction back through the engine before the handle is released, so
the durable contents seen on reopening equal what was committed before the
transaction — the uncommitted write is not observable. -/
theorem destroy_aborts_active_transaction (s : StoreState) (k v : Bytes)
    (hdb : s.dbOpen = true) (hidle : s.inTransaction = false)
    (hp : s.engine.pending = none) :
    isInTransaction (writeRaw (startTransaction s 0).2 k k.length v v.length 0).2 = true ∧
    reopenContents
        (destroy (writeRaw (startTransaction s 0).2 k k.length v v.length 0).2) =
      s.engine.committed := by
  simp [startTransaction, writeRaw, isInTransaction, hdb, hidle, UNQLITE_OK,
        unqlite_begin, unqlite_kv_store, kvView, hp, destroy, abortTransaction,
        unqlite_rollback, closeEngine, reopenContents]

/-- Witness for C6: start a transaction on a concrete open store, write a
pair, destroy, and observe the pre-transaction durable contents. -/
theorem destroy_aborts_active_transaction_witness :
    (demoStore.dbOpen = true ∧ demoStore.inTransaction = false ∧
     demoStore.engine.pending = none) ∧
    (isInTransaction
        (writeRaw (startTransaction demoStore 0).2 [3] 1 [30] 1 0).2 = true ∧
     reopenContents
        (destroy (writeRaw (startTransaction demoStore 0).2 [3] 1 [30] 1 0).2) =
      demoStore.engine.committed) :=
  ⟨⟨by decide, by decide, by decide⟩, by
    have h := destroy_aborts_active_transaction demoStore [3] [30]
      (by decide) (by decide) (by decide)
    simpa using h⟩

/-- C7: an exact-seek scan on an open store for a non-empty key the engine
does not hold invokes the result handler zero times and the error handler
zero times; the not-found diagnostic for that key is the only observable
effect, and the buffers and cursor are still released. -/
theorem scan_exactSeek_absent_key_silent (s : StoreState) (k : Bytes)
    (h : Bytes → Bytes → Bool) (hdb : s.dbOpen = true) (hk : k ≠ [])
    (habs : assocGet (kvView s.engine) k = none) :
    scan s (some k) k.length h 0 =
      { handled := [], errors := [], diagnostics := [k],
        cursorOpened := true, cursorReleased := true, buffersFreed := true } := by
  have hlen : k.length ≠ 0 := by simpa using hk
  simp [scan, hdb, UNQLITE_OK, hlen, List.take_length, habs]

/-- Witness for C7: seeking an absent key on a concrete two-entry store. -/
theorem scan_exactSeek_absent_key_silent_witness :
    (demoStore.dbOpen = true ∧ ([9] : Bytes) ≠ [] ∧
     assocGet (kvView demoStore.engine) [9] = none) ∧
    scan demoStore (some [9]) (List.length [9]) (fun _ _ => true) 0 =
      { handled := [], errors := [], diagnostics := [[9]],
        cursorOpened := true, cursorReleased := true, buffersFreed := true } :=
  ⟨⟨by decide, by decide, by decide⟩,
   scan_exactSeek_absent_key_silent demoStore [9] (fun _ _ => true)
     (by decide) (by decide) (by decide)⟩

/-- C8: remove hands the error handler an error exactly when the handle is
closed — in that case the "not open" error, with the state untouched —
and with an open handle performs the engine delete and hands the error
handler nothing, whatever the engine's delete result (which the source
ignores). -/
theorem remove_reports_error_iff_not_open (s : StoreState) (k : Bytes) (ksz : Nat) :
    ((remove s k ksz).errors ≠ [] ↔ s.dbOpen = false) ∧
    (s.dbOpen = false →
      remove s k ksz = { state := s, errors := [⟨s.name, -1, "Not open"⟩] }) ∧
    (s.dbOpen = true →
      remove s k ksz =
        { state := { s with engine := unqlite_kv_delete s.engine (k.take ksz) },
          errors := [] }) := by
  cases hdb : s.dbOpen <;> simp [remove, hdb]

/-- Witness for C8 at a concrete open store. -/
theorem remove_reports_error_iff_not_open_witness :
    ((remove demoStore [1] 1).errors ≠ [] ↔ demoStore.dbOpen = false) ∧
    (demoStore.dbOpen = false →
      remove demoStore [1] 1 =
        { state := demoStore, errors := [⟨demoStore.name, -1, "Not open"⟩] }) ∧
    (demoStore.dbOpen = true →
      remove demoStore [1] 1 =
        { state := { demoStore with
                       engine := unqlite_kv_delete demoStore.engine (List.take 1 [1]) },
          errors := [] }) :=
  remove_reports_error_iff_not_open demoStore [1] 1

/-- C9: once the handle is open and the cursor initialized successfully,
every exit path of scan — full-scan completion, exact-seek hit, or
exact-seek miss — frees both buffers and releases the cursor before
returning. -/
theorem scan_releases_buffers_and_cursor (s : StoreState)
    (keyData : Option Bytes) (keySize : Nat) (h : Bytes → Bytes → Bool)
    (hdb : s.dbOpen = true) :
    (scan s keyData keySize h 0).buffersFreed = true ∧
    (scan s keyData keySize h 0).cursorReleased = true := by
  by_cases hk : keyData.isNone || keySize = 0
  · simp [scan, hdb, UNQLITE_OK, hk]
  · cases hget : assocGet (kvView s.engine) ((keyData.getD []).take keySize) <;>
      simp [scan, hdb, UNQLITE_OK, hk, hget]

/-- Witness for C9 on a concrete exact-seek scan. -/
theorem scan_releases_buffers_and_cursor_witness :
    demoStore.dbOpen = true ∧
    ((scan demoStore (some [2]) 1 (fun _ _ => false) 0).buffersFreed = true ∧
     (scan demoStore (some [2]) 1 (fun _ _ => false) 0).cursorReleased = true) :=
  ⟨by decide,
   scan_releases_buffers_and_cursor demoStore (some [2]) 1 (fun _ _ => false) (by decide)⟩

/-- Storing through the engine keeps a transaction pending exactly when
one was pending. -/
theorem unqlite_kv_store_pending_isSome (e : EngineState) (k v : Bytes) :
    (unqlite_kv_store e k v).pending.isSome = e.pending.isSome := by
  cases hp : e.pending <;> simp [unqlite_kv_store, hp]

/-- Deleting through the engine keeps a transaction pending exactly when
one was pending. -/
theorem unqlite_kv_delete_pending_isSome (e : EngineState) (k : Bytes) :
    (unqlite_kv_delete e k).pending.isSome = e.pending.isSome := by
  cases hp : e.pending <;> simp [unqlite_kv_delete, hp]

/-- C10: every operation preserves the invariant that the inTransaction
flag is set only on a store with an open handle whose engine holds a
pending transaction begun by a successful unqlite_begin and not yet
committed or rolled back; in particular no operation turns the flag on
while the handle is null. -/
theorem applyOp_preserves_transaction_invariant (s : StoreState) (op : Op)
    (hinv : txnInv s) :
    txnInv (applyOp s op) ∧
    (s.dbOpen = false → isInTransaction (applyOp s op) = false) := by
  unfold txnInv isInTransaction at *
  cases op with
  | start rc =>
      by_cases hrc : rc = UNQLITE_OK <;>
        cases hdb : s.dbOpen <;> cases htx : s.inTransaction <;>
          simp_all [applyOp, startTransaction, unqlite_begin]
  | commit rc =>
      by_cases hrc : rc = UNQLITE_OK <;>
        cases hdb : s.dbOpen <;> cases htx : s.inTransaction <;>
          simp_all [applyOp, commitTransaction, unqlite_commit]
  | abortTxn =>
      cases hdb : s.dbOpen <;> cases htx : s.inTransaction <;>
        simp_all [applyOp, abortTransaction, unqlite_rollback]
  | writeOp k ksz v vsz rc =>
      by_cases hrc : rc = UNQLITE_OK <;>
        cases hdb : s.dbOpen <;> cases htx : s.inTransaction <;>
          simp_all [applyOp, writeRaw, unqlite_kv_store_pending_isSome]
  | removeOp k ksz =>
      cases hdb : s.dbOpen <;> cases htx : s.inTransaction <;>
        simp_all [applyOp, remove, unqlite_kv_delete_pending_isSome]

/-- Witness for C10: starting a transaction on a concrete never-opened
store keeps its flag off. -/
theorem applyOp_preserves_transaction_invariant_witness :
    txnInv closedStore ∧
    (txnInv (applyOp closedStore (Op.start 0)) ∧
     (closedStore.dbOpen = false →
        isInTransaction (applyOp closedStore (Op.start 0)) = false)) :=
  ⟨by simp [txnInv, closedStore],
   applyOp_preserves_transaction_invariant closedStore (Op.start 0)
     (by simp [txnInv, closedStore])⟩

end StorageUnqlite
